import Mathlib

/-!
Verification development for the `patching` repository (src/patching.py).

The repository has two components:
  * `OutVar` — rewrites a function's bytecode so that every return also
    reports the final values of selected local parameters
    (`patch`, `unpatch`, `get_info`, `get_capture`, `get_original`,
    `is_patched`);
  * `Patching` — an interception engine installing wrappers around symbols
    of modules (`_prefix_atom`, `_postfix_atom`, the elementary wrappers,
    the registry operations and the `__import__` hook).

The shallow embedding below models Python functions as explicit records
(code list, variable names, optional `OUTPATCHINFO` metadata), bytecode as a
small instruction type with a stack-machine interpreter, and the engine
state (registry of pending patches, module symbol tables) as association
lists.  Every definition is translated directly from the source; the Python
line numbers are cited next to each definition.
-/

/-- Python runtime values, as far as the claims need them: `None`, booleans,
integers, strings, tuples, dicts (keyword-argument mappings) and loaded
module objects (identified by their name). -/
inductive PyVal where
  | none : PyVal
  | bool (b : Bool) : PyVal
  | int (n : Int) : PyVal
  | str (s : String) : PyVal
  | tuple (l : List PyVal) : PyVal
  | dict (l : List (String × PyVal)) : PyVal
  | module (name : String) : PyVal

/-- Python truthiness (`bool(v)`): `None` and `False` are falsy, numbers are
truthy iff nonzero, strings/tuples/dicts iff nonempty, modules truthy. -/
def truthy : PyVal → Bool
  | PyVal.none => false
  | PyVal.bool b => b
  | PyVal.int n => decide (n ≠ 0)
  | PyVal.str s => decide (s ≠ "")
  | PyVal.tuple l => !l.isEmpty
  | PyVal.dict l => !l.isEmpty
  | PyVal.module _ => true

/-- Python identity test with the `True` singleton (`v is True`), used by
`Patching._prefix_atom._wrapper` (patching.py:392). -/
def isTheTrueObject : PyVal → Bool
  | PyVal.bool true => true
  | _ => false

/-- The bytecode instructions handled by the embedding.  `OutVar.patch` only
inspects instruction names and inserts `LOAD_FAST` / `BUILD_TUPLE`
(patching.py:163-180); the remaining constructors let us express function
bodies.  Line numbers carried by the real `bytecode.Instr` objects do not
affect behaviour and are omitted. -/
inductive Instr where
  | LOAD_FAST (x : String) : Instr
  | LOAD_CONST (v : PyVal) : Instr
  | STORE_FAST (x : String) : Instr
  | BUILD_TUPLE (n : Nat) : Instr
  | RETURN_VALUE : Instr

/-- The opcode name of an instruction, compared by the source against the
string "RETURN_VALUE" (patching.py:167). -/
def Instr.pyName : Instr → String
  | Instr.LOAD_FAST _ => "LOAD_FAST"
  | Instr.LOAD_CONST _ => "LOAD_CONST"
  | Instr.STORE_FAST _ => "STORE_FAST"
  | Instr.BUILD_TUPLE _ => "BUILD_TUPLE"
  | Instr.RETURN_VALUE => "RETURN_VALUE"

/-- Python `list.insert(i, a)`: a negative index counts from the end and is
clamped at 0; an index beyond the length appends. -/
def pyInsert (l : List α) (i : Int) (a : α) : List α :=
  let n : Int := l.length
  let j : Int := if i < 0 then (if i + n < 0 then 0 else i + n) else (if i > n then n else i)
  l.take j.toNat ++ a :: l.drop j.toNat

/-- The rewrite loop of `OutVar.patch` (patching.py:163-180).  The first
argument of the recursion is the snapshot `copy(newcode)` being iterated,
the second the evolving `newcode` list, the third the running index `ind`
(which the source only advances when a `RETURN_VALUE` is seen).  For every
`RETURN_VALUE` in the snapshot the loop inserts one `LOAD_FAST` per
captured name and a final `BUILD_TUPLE` at position `ind - 1` of the
evolving list. -/
def outvarGo (names : List String) : List Instr → List Instr → Int → List Instr
  | [], newcode, _ => newcode
  | instr :: rest, newcode, ind =>
    if instr.pyName = "RETURN_VALUE" then
      let c1 := names.foldl (fun c x => pyInsert c (ind - 1) (Instr.LOAD_FAST x)) newcode
      let c2 := pyInsert c1 (ind - 1) (Instr.BUILD_TUPLE (names.length + 1))
      outvarGo names rest c2 (ind + names.length + 1)
    else
      outvarGo names rest newcode ind

/-- `OutVar.patch`'s whole-code rewrite: iterate over a copy of the code
while mutating the live list, starting with `ind = 0` (patching.py:158-180). -/
def outvarRewrite (names : List String) (code : List Instr) : List Instr :=
  outvarGo names code code 0

/-- Fuel-indexed stack-machine interpreter for the instruction model.
`Option.none` is any runtime failure (unknown local, stack underflow,
falling off the end, fuel exhaustion). -/
def execFrom (code : List Instr) : Nat → List (String × PyVal) → List PyVal → Nat → Option PyVal
  | _, _, _, 0 => Option.none
  | ip, env, stack, fuel + 1 =>
    match code[ip]? with
    | Option.none => Option.none
    | some i =>
      match i with
      | Instr.LOAD_FAST x =>
        match env.lookup x with
        | some v => execFrom code (ip + 1) env (v :: stack) fuel
        | Option.none => Option.none
      | Instr.LOAD_CONST v => execFrom code (ip + 1) env (v :: stack) fuel
      | Instr.STORE_FAST x =>
        match stack with
        | v :: rest => execFrom code (ip + 1) ((x, v) :: env) rest fuel
        | [] => Option.none
      | Instr.BUILD_TUPLE n =>
        if n ≤ stack.length then
          execFrom code (ip + 1) env (PyVal.tuple (stack.take n).reverse :: stack.drop n) fuel
        else
          Option.none
      | Instr.RETURN_VALUE =>
        match stack with
        | v :: _ => some v
        | [] => Option.none

/-- Run a code list on an initial local environment with an empty stack. -/
def exec (code : List Instr) (env : List (String × PyVal)) (fuel : Nat) : Option PyVal :=
  execFrom code 0 env [] fuel

/-- The structurally independent copy of a function kept as the patch's
`original`: `FunctionType(func.__code__, func.__globals__, func.__name__,
func.__defaults__, func.__closure__)` (patching.py:185-191).  Attributes such
as `OUTPATCHINFO` are not copied onto the new function object, so an
original never carries patch metadata. -/
structure OrigFunc where
  code : List Instr
  varnames : List String

/-- The `OUTPATCHINFO` dictionary attached to a patched function
(patching.py:196-199). -/
structure PatchInfo where
  captured : List String
  original : OrigFunc

/-- A Python function object as `OutVar` sees it: its code object, its
`co_varnames`, and the optional `OUTPATCHINFO` attribute. -/
structure PyFunc where
  code : List Instr
  varnames : List String
  meta : Option PatchInfo

/-- The `names` argument of `OutVar.patch`: omitted (`None`), a single
string, or an iterable of strings (patching.py:117). -/
inductive NamesArg where
  | noneN : NamesArg
  | strN (s : String) : NamesArg
  | listN (l : List String) : NamesArg

/-- Name resolution at the head of `OutVar.patch` (patching.py:132-138):
`None` means all of `co_varnames`; a single string becomes a one-element
tuple. -/
def resolveNames (func : PyFunc) (names : NamesArg) : List String :=
  match names with
  | NamesArg.noneN => func.varnames
  | NamesArg.strN s => [s]
  | NamesArg.listN l => l

namespace OutVar

/-- `OutVar.is_patched` (patching.py:261-270): the function carries an
`OUTPATCHINFO` attribute. -/
def is_patched (func : PyFunc) : Bool :=
  func.meta.isSome

/-- `OutVar.get_info` (patching.py:219-231): the metadata, or `None`. -/
def get_info (func : PyFunc) : Option PatchInfo :=
  func.meta

/-- `OutVar.get_capture` (patching.py:233-245): the captured names, or
`None` when unpatched. -/
def get_capture (func : PyFunc) : Option (List String) :=
  func.meta.map (fun i => i.captured)

/-- `OutVar.get_original` (patching.py:247-259): the saved pre-patch
function, or `None` when unpatched. -/
def get_original (func : PyFunc) : Option OrigFunc :=
  func.meta.map (fun i => i.original)

/-- `OutVar.patch` (patching.py:117-201).  Resolves `names`; returns the
function unchanged if no names survive; if the function is already patched,
prepends the new names to the previously captured ones and rewrites the
*original* code; mutates the function's code to the rewritten code and
stores/replaces the `OUTPATCHINFO` metadata. -/
def patch (func : PyFunc) (names : NamesArg) : PyFunc :=
  let ns := resolveNames func names
  if ns = [] then func
  else
    let ns2 := match func.meta with
      | some info => ns ++ info.captured
      | Option.none => ns
    let oldcode := match func.meta with
      | some info => info.original.code
      | Option.none => func.code
    let origOfFunc : OrigFunc := { code := func.code, varnames := func.varnames }
    let orig := match func.meta with
      | some info => info.original
      | Option.none => origOfFunc
    { func with
        code := outvarRewrite ns2 oldcode,
        meta := some { captured := ns2, original := orig } }

/-- `OutVar.unpatch` (patching.py:203-217).  A no-op on an unpatched
function; otherwise restores the saved code object.  Note the source does
NOT delete the `OUTPATCHINFO` attribute. -/
def unpatch (func : PyFunc) : PyFunc :=
  match func.meta with
  | Option.none => func
  | some info => { func with code := info.original.code }

end OutVar

/-- Association-list lookup keyed by strings (Python `dict` lookup /
attribute lookup). -/
def assocFind (k : String) : List (String × β) → Option β
  | [] => Option.none
  | (k', v) :: rest => if k' = k then some v else assocFind k rest

/-- Association-list update: replace the binding of `k`, or append a fresh
one (Python `dict.__setitem__` / `setattr`). -/
def assocSet (k : String) (v : β) : List (String × β) → List (String × β)
  | [] => [(k, v)]
  | (k', v') :: rest => if k' = k then (k, v) :: rest else (k', v') :: assocSet k v rest

/-- A symbol bound in a module: either an original callable (identified by a
number) or a wrapper installed by `_prefix_atom` / `_postfix_atom`
(patching.py:397, 435), holding the interceptor's identity and the previous
binding in its closure. -/
inductive PySym where
  | plain (id : Nat) : PySym
  | prefixed (interceptorId : Nat) (inner : PySym) : PySym
  | postfixed (interceptorId : Nat) (inner : PySym) : PySym
deriving DecidableEq

/-- A loaded module: its `__name__` and its symbol table. -/
structure ModuleNS where
  name : String
  syms : List (String × PySym)
deriving DecidableEq

/-- A pending interception request, the tuple
`(patch_type, name, interceptor)` stored in `_PATCH_INFO`
(patching.py:521, 559); interceptors are identified by number. -/
structure Entry where
  kind : String
  sym : String
  interceptorId : Nat
deriving DecidableEq

/-- The `_PATCH_INFO` registry: module name to pending-entry set
(patching.py:286).  The Python set is modelled as a duplicate-free list. -/
abbrev Registry := List (String × List Entry)

/-- `Patching._prefix_atom` (patching.py:353-399): if the symbol exists in
the module, rebind it to the wrapper (which closes over the previous
binding and the interceptor); otherwise `AttributeError` (`Option.none`). -/
def prefixAtom (base : ModuleNS) (name : String) (pid : Nat) : Option ModuleNS :=
  match assocFind name base.syms with
  | some f => some { base with syms := assocSet name (PySym.prefixed pid f) base.syms }
  | Option.none => Option.none

/-- `Patching._postfix_atom` (patching.py:401-437): same shape as
`prefixAtom` with a postfix wrapper. -/
def postfixAtom (base : ModuleNS) (name : String) (pid : Nat) : Option ModuleNS :=
  match assocFind name base.syms with
  | some f => some { base with syms := assocSet name (PySym.postfixed pid f) base.syms }
  | Option.none => Option.none

/-- One iteration body of `process_imports` (patching.py:328-337): dispatch
on the entry's kind.  A kind that is neither string leaves the module
untouched (the entry is still removed by the caller). -/
def applyEntry (m : ModuleNS) (e : Entry) : Option ModuleNS :=
  if e.kind = "prefix" then prefixAtom m e.sym e.interceptorId
  else if e.kind = "postfix" then postfixAtom m e.sym e.interceptorId
  else some m

/-- The drain loop of `process_imports` (patching.py:328-337): iterate over
a snapshot (`copy(...)`) of the pending set, applying each entry to the
loaded module and removing it from the live set. -/
def drainGo (m : ModuleNS) : List Entry → List Entry → Option (List Entry × ModuleNS)
  | [], live => some (live, m)
  | e :: rest, live =>
    match applyEntry m e with
    | some m' => drainGo m' rest (live.erase e)
    | Option.none => Option.none

/-- `process_imports` (patching.py:314-337): when the freshly imported
module's name has pending entries, apply and remove each of them;
`Option.none` models an exception escaping the hook (missing symbol). -/
def processImports (reg : Registry) (result : ModuleNS) : Option (Registry × ModuleNS) :=
  match assocFind result.name reg with
  | Option.none => some (reg, result)
  | some entries =>
    match drainGo result entries entries with
    | some p => some (assocSet result.name p.1 reg, p.2)
    | Option.none => Option.none

/-- `Patching.prefix` (patching.py:483-521), minus the `__import__`-hook
installation of `_patch__import__` (which only touches the load primitive,
not the registry or any module): if the caller's globals bind the module
name to a module object, apply the atom immediately; otherwise queue the
entry (`set.add`: no duplicates) and touch no module. -/
def prefixReg (reg : Registry) (scope : List (String × ModuleNS))
    (module sname : String) (pid : Nat) :
    Option (Registry × List (String × ModuleNS)) :=
  match assocFind module scope with
  | some m =>
    match prefixAtom m sname pid with
    | some m' => some (reg, assocSet module m' scope)
    | Option.none => Option.none
  | Option.none =>
    let cur := (assocFind module reg).getD []
    let e : Entry := { kind := "prefix", sym := sname, interceptorId := pid }
    some (assocSet module (if e ∈ cur then cur else cur ++ [e]) reg, scope)

/-- `Patching.postfix` (patching.py:523-559), analogous to `prefixReg`. -/
def postfixReg (reg : Registry) (scope : List (String × ModuleNS))
    (module sname : String) (pid : Nat) :
    Option (Registry × List (String × ModuleNS)) :=
  match assocFind module scope with
  | some m =>
    match postfixAtom m sname pid with
    | some m' => some (reg, assocSet module m' scope)
    | Option.none => Option.none
  | Option.none =>
    let cur := (assocFind module reg).getD []
    let e : Entry := { kind := "postfix", sym := sname, interceptorId := pid }
    some (assocSet module (if e ∈ cur then cur else cur ++ [e]) reg, scope)

/-- The wrapper installed by `Patching._prefix_atom` (patching.py:379-397),
as a behaviour on calls.  `this_func` is the wrapped callable, returning a
value and a trace of its side effects.  `icpt` is the interceptor *after*
its per-call `OutVar.patch(prefix, '_result')`: applied to
`(args, kwargs, _result)` it yields `((direct return, final value of the
_result local), trace)` — the out-var-patched interceptor returns the pair
`(return value, _result)`.  The wrapper passes `_result = None`, then runs
the original only when the direct return `is True`. -/
def prefixAtomWrapper (this_func : PyVal → PyVal → PyVal × List String)
    (icpt : PyVal → PyVal → PyVal → (PyVal × PyVal) × List String)
    (args kwargs : PyVal) : PyVal × List String :=
  let pout := icpt args kwargs PyVal.none
  if isTheTrueObject pout.1.1 then
    let r := this_func args kwargs
    (r.1, pout.2 ++ r.2)
  else
    (pout.1.2, pout.2)

/-- The wrapper installed by `Patching._postfix_atom` (patching.py:424-435):
run the original, hand its result to the (out-var-patched) interceptor as
`_result`, then `return _result or postfix_out[0]` — the final `_result`
local when truthy, else the interceptor's direct return. -/
def postfixAtomWrapper (this_func : PyVal → PyVal → PyVal × List String)
    (icpt : PyVal → PyVal → PyVal → (PyVal × PyVal) × List String)
    (args kwargs : PyVal) : PyVal × List String :=
  let r := this_func args kwargs
  let pout := icpt args kwargs r.1
  (if truthy pout.1.2 then pout.1.2 else pout.1.1, r.2 ++ pout.2)

/-- `Patching.elementary_prefix._prefix_wrapper` (patching.py:453-457).
Callables take a positional-argument list and a keyword dictionary and
return a value with a trace.  The source calls `prefix(args, kwargs)` and
then `func(args, kwargs)` — i.e. it passes the packed argument tuple and
the keyword dict as two positional arguments (NOT `func(*args, **kwargs)`),
and returns `func`'s result. -/
def elementaryPrefixW (func pfn : List PyVal → List (String × PyVal) → PyVal × List String)
    (args : List PyVal) (kwargs : List (String × PyVal)) : PyVal × List String :=
  let p := pfn [PyVal.tuple args, PyVal.dict kwargs] []
  let r := func [PyVal.tuple args, PyVal.dict kwargs] []
  (r.1, p.2 ++ r.2)

/-- `Patching.elementary_postfix._postfix_wrapper` (patching.py:476-481):
`result = func(*args, **kwargs)` (true forwarding), then
`return prefix(args, kwargs, result)` — the interceptor gets the packed
args, the kwargs dict and the result as three positionals, and the
*interceptor's* return value is the wrapper's return value. -/
def elementaryPostfixW (func pfn : List PyVal → List (String × PyVal) → PyVal × List String)
    (args : List PyVal) (kwargs : List (String × PyVal)) : PyVal × List String :=
  let r := func args kwargs
  let p := pfn [PyVal.tuple args, PyVal.dict kwargs, r.1] []
  (p.1, r.2 ++ p.2)

/-- The mutation a single invocation of the `_prefix_atom` / `_postfix_atom`
wrapper performs on the interceptor function object:
`OutVar.patch(prefix, '_result')` (patching.py:388, 429). -/
def prefixAtomPatchStep (icpt : PyFunc) : PyFunc :=
  OutVar.patch icpt (NamesArg.strN "_result")

/-- The interceptor's state after `n` invocations of the wrapper. -/
def prefixAtomPatchIter : Nat → PyFunc → PyFunc
  | 0, icpt => icpt
  | n + 1, icpt => prefixAtomPatchIter n (prefixAtomPatchStep icpt)

/-- A simple unpatched function: `def f(a): return a`. -/
def f0 : PyFunc :=
  { code := [Instr.LOAD_FAST "a", Instr.RETURN_VALUE],
    varnames := ["a"],
    meta := Option.none }

/-- An instruction sequence with two value-returning instructions, the
shape of a callable with two return statements. -/
def twoRetCode : List Instr :=
  [Instr.LOAD_FAST "a", Instr.RETURN_VALUE, Instr.LOAD_FAST "b", Instr.RETURN_VALUE]

/-- A concrete interceptor function object, `def icpt(args, kwargs,
_result): return False`, before any out-var patching. -/
def icptC : PyFunc :=
  { code := [Instr.LOAD_CONST (PyVal.bool false), Instr.RETURN_VALUE],
    varnames := ["args", "kwargs", "_result"],
    meta := Option.none }

/-- A target callable with an observable side effect, for the interception
wrappers. -/
def origSideEffect : PyVal → PyVal → PyVal × List String :=
  fun _ _ => (PyVal.int 99, ["original ran"])

/-- An interceptor whose direct return value is the truthy integer `1` and
which never writes `_result` (its final `_result` local is the value passed
in). -/
def icptTruthyOne : PyVal → PyVal → PyVal → (PyVal × PyVal) × List String :=
  fun _ _ r => ((PyVal.int 1, r), ["interceptor ran"])

/-- An interceptor that sets `_result` to the truthy `5` and directly
returns `None`. -/
def icptSetFive : PyVal → PyVal → PyVal → (PyVal × PyVal) × List String :=
  fun _ _ _ => ((PyVal.none, PyVal.int 5), ["interceptor ran"])

/-- A callable returning its first positional argument (`def f(x): return
x`), for the elementary wrappers. -/
def funcFirstArg : List PyVal → List (String × PyVal) → PyVal × List String :=
  fun args _ => (args.headD PyVal.none, [])

/-- A logging-only interceptor for the elementary wrappers. -/
def pfnNoop : List PyVal → List (String × PyVal) → PyVal × List String :=
  fun _ _ => (PyVal.none, ["interceptor ran"])

/-- The original `__import__` primitive: loads and returns the module named
by its first argument. -/
def importOrig : List PyVal → List (String × PyVal) → PyVal × List String :=
  fun args _ =>
    match args.headD PyVal.none with
    | PyVal.str s => (PyVal.module s, ["loaded " ++ s])
    | _ => (PyVal.none, [])

/-- The behaviour of `process_imports` (patching.py:314-337) as the
interceptor handed to `elementary_postfix` when the import hook is
installed (patching.py:339-342): it drains the pending registry as a side
effect and ends without a `return` statement, so its return value is
`None`. -/
def processImportsFn : List PyVal → List (String × PyVal) → PyVal × List String :=
  fun _ _ => (PyVal.none, ["drained pending patches"])

/-- A module `futuremod` exposing a symbol `f`, as loaded by an import. -/
def mFut : ModuleNS := { name := "futuremod", syms := [("f", PySym.plain 3)] }

/-- `futuremod` after interceptor 7 has been applied as a prefix to `f`. -/
def mFutPatched : ModuleNS :=
  { name := "futuremod", syms := [("f", PySym.prefixed 7 (PySym.plain 3))] }

/-- Claim C4 (code_bug): `OutVar.patch` is meant to insert the
load-and-build-tuple instructions before *every* `RETURN_VALUE`, but the
loop never advances `ind` past non-return instructions (patching.py:163-180),
so on a two-return code list the first return's capture code is inserted
before the *last* instruction and the second return's capture code at index
1: the result is not the per-return insertion the claim describes, and the
first return path now underflows the stack, while the unpatched code ran
fine. -/
theorem outvar_multi_return_misplaced :
    outvarRewrite ["x"] twoRetCode =
      [Instr.LOAD_FAST "a", Instr.BUILD_TUPLE 2, Instr.LOAD_FAST "x", Instr.RETURN_VALUE,
       Instr.LOAD_FAST "b", Instr.LOAD_FAST "x", Instr.BUILD_TUPLE 2, Instr.RETURN_VALUE] ∧
    exec (outvarRewrite ["x"] twoRetCode)
      [("a", PyVal.int 1), ("b", PyVal.int 2), ("x", PyVal.int 3)] 10 = Option.none ∧
    exec twoRetCode
      [("a", PyVal.int 1), ("b", PyVal.int 2), ("x", PyVal.int 3)] 10 = some (PyVal.int 1) :=
  ⟨rfl, rfl, rfl⟩

/-- Claim C5 (code_bug): `OutVar.unpatch` restores the pre-patch code, but
it never deletes the `OUTPATCHINFO` attribute (patching.py:203-217), so
after `unpatch(patch(f, "a"))` the function still reports `is_patched =
true` and `get_capture = ["a"]` instead of the absent sentinel the claim
requires; unpatching an unpatched callable is indeed a no-op. -/
theorem unpatch_keeps_metadata :
    (OutVar.unpatch (OutVar.patch f0 (NamesArg.strN "a"))).code = f0.code ∧
    OutVar.is_patched (OutVar.unpatch (OutVar.patch f0 (NamesArg.strN "a"))) = true ∧
    OutVar.get_capture (OutVar.unpatch (OutVar.patch f0 (NamesArg.strN "a"))) = some ["a"] ∧
    OutVar.get_info (OutVar.unpatch (OutVar.patch f0 (NamesArg.strN "a"))) ≠ Option.none ∧
    OutVar.unpatch f0 = f0 :=
  ⟨rfl, rfl, rfl, fun h => Option.noConfusion h, rfl⟩

/-- Claim C2 (confirmed): for an unpatched callable and a non-empty name
list, `unpatch(patch(f, names))` restores exactly the pre-patch code (the
`original` copy is taken before the code is mutated, patching.py:185-194,
and `unpatch` reinstates it, patching.py:215), hence the round-tripped
callable computes the same result as `f` on every input — same return
value, same side effects. -/
theorem outvar_patch_unpatch_roundtrip (f : PyFunc) (ns : List String)
    (h1 : f.meta = Option.none) (h2 : ns ≠ []) :
    (OutVar.unpatch (OutVar.patch f (NamesArg.listN ns))).code = f.code ∧
    ∀ env fuel,
      exec (OutVar.unpatch (OutVar.patch f (NamesArg.listN ns))).code env fuel
        = exec f.code env fuel := by
  have hcode : (OutVar.unpatch (OutVar.patch f (NamesArg.listN ns))).code = f.code := by
    simp [OutVar.patch, OutVar.unpatch, resolveNames, h1, h2]
  exact ⟨hcode, fun env fuel => by rw [hcode]⟩

/-- Witness for C2 at `f0` and `["a"]`. -/
theorem outvar_patch_unpatch_roundtrip_witness :
    f0.meta = Option.none ∧ (["a"] : List String) ≠ [] ∧
    (OutVar.unpatch (OutVar.patch f0 (NamesArg.listN ["a"]))).code = f0.code :=
  ⟨rfl, by decide, (outvar_patch_unpatch_roundtrip f0 ["a"] rfl (by decide)).1⟩

/-- Claim C6 counterexample: patching `f0` twice with the same name `"a"`
is NOT equivalent to a single patch with the union of the requested names
(`{"a"}`): the capture list becomes `["a", "a"]` and the rewritten code
returns a longer tuple, so the repeated patch differs from `patch f0 ["a"]`
both structurally and behaviourally. -/
theorem repeat_patch_not_union :
    OutVar.patch (OutVar.patch f0 (NamesArg.listN ["a"])) (NamesArg.listN ["a"])
      ≠ OutVar.patch f0 (NamesArg.listN ["a"]) ∧
    OutVar.get_capture
      (OutVar.patch (OutVar.patch f0 (NamesArg.listN ["a"])) (NamesArg.listN ["a"]))
      = some ["a", "a"] ∧
    exec (OutVar.patch (OutVar.patch f0 (NamesArg.listN ["a"])) (NamesArg.listN ["a"])).code
      [("a", PyVal.int 3)] 20 = some (PyVal.tuple [PyVal.int 3, PyVal.int 3, PyVal.int 3]) ∧
    exec (OutVar.patch f0 (NamesArg.listN ["a"])).code
      [("a", PyVal.int 3)] 20 = some (PyVal.tuple [PyVal.int 3, PyVal.int 3]) := by
  refine ⟨?_, rfl, rfl, rfl⟩
  intro h
  have h2 : (some ["a", "a"] : Option (List String)) = some ["a"] := by
    calc (some ["a", "a"] : Option (List String))
        = OutVar.get_capture
            (OutVar.patch (OutVar.patch f0 (NamesArg.listN ["a"])) (NamesArg.listN ["a"])) := rfl
      _ = OutVar.get_capture (OutVar.patch f0 (NamesArg.listN ["a"])) := by rw [h]
      _ = some ["a"] := rfl
  exact absurd h2 (by decide)

/-- Claim C6 amended (corrected): repeated patching of an unpatched
callable equals a single patch with the *concatenation* of the requested
name lists, most recently requested first — duplicates are retained, so
this coincides with the union only for disjoint requests.  The rewrite is
always performed against the original pre-patch code
(patching.py:145-158, 194-199). -/
theorem repeat_patch_concat (f : PyFunc) (ns1 ns2 : List String)
    (h1 : f.meta = Option.none) (h2 : ns1 ≠ []) (h3 : ns2 ≠ []) :
    OutVar.patch (OutVar.patch f (NamesArg.listN ns1)) (NamesArg.listN ns2)
      = OutVar.patch f (NamesArg.listN (ns2 ++ ns1)) := by
  have h4 : ns2 ++ ns1 ≠ [] := by
    intro hc
    exact h3 (List.append_eq_nil.mp hc).1
  simp [OutVar.patch, resolveNames, h1, h2, h3, h4]

/-- Witness for the amended C6 at `f0`, `["a"]` then `["b"]`: the capture
order is `(b, a)`, most recent first. -/
theorem repeat_patch_concat_witness :
    f0.meta = Option.none ∧ (["a"] : List String) ≠ [] ∧ (["b"] : List String) ≠ [] ∧
    OutVar.patch (OutVar.patch f0 (NamesArg.listN ["a"])) (NamesArg.listN ["b"])
      = OutVar.patch f0 (NamesArg.listN ["b", "a"]) :=
  ⟨rfl, by decide, by decide,
    repeat_patch_concat f0 ["a"] ["b"] rfl (by decide) (by decide)⟩

/-- Claim C3 (code_bug): the prefix wrapper tests `prefix_out[0] is True`
(patching.py:392), not truthiness.  With an interceptor whose direct return
is the truthy `1`, the claim (and the function's own docstring,
patching.py:361-364) requires the original to run and its result to be
returned; instead the wrapper skips the original (its side effect is
absent from the trace) and returns the `_result` value `None`.  The
false-like branch itself behaves as claimed. -/
theorem prefix_is_true_check_not_truthy :
    truthy (PyVal.int 1) = true ∧
    prefixAtomWrapper origSideEffect icptTruthyOne (PyVal.tuple []) (PyVal.dict [])
      = (PyVal.none, ["interceptor ran"]) ∧
    origSideEffect (PyVal.tuple []) (PyVal.dict []) = (PyVal.int 99, ["original ran"]) :=
  ⟨rfl, rfl, rfl⟩

/-- Claim C7 (confirmed): the postfix wrapper always runs the original
first (its effects precede the interceptor's in the trace) and hands its
result to the interceptor as the third positional; the final value of the
interceptor's `_result` local is returned when truthy, else the
interceptor's own direct return value (patching.py:424-435). -/
theorem postfix_wrapper_result_override
    (orig : PyVal → PyVal → PyVal × List String)
    (icpt : PyVal → PyVal → PyVal → (PyVal × PyVal) × List String)
    (args kwargs : PyVal) :
    (postfixAtomWrapper orig icpt args kwargs).2
      = (orig args kwargs).2 ++ (icpt args kwargs (orig args kwargs).1).2 ∧
    (truthy (icpt args kwargs (orig args kwargs).1).1.2 = true →
      (postfixAtomWrapper orig icpt args kwargs).1
        = (icpt args kwargs (orig args kwargs).1).1.2) ∧
    (truthy (icpt args kwargs (orig args kwargs).1).1.2 = false →
      (postfixAtomWrapper orig icpt args kwargs).1
        = (icpt args kwargs (orig args kwargs).1).1.1) := by
  refine ⟨rfl, ?_, ?_⟩ <;> intro h <;> simp [postfixAtomWrapper, h]

/-- Witness for C7: an interceptor that sets `_result` to the truthy `5`
makes the wrapper return `5` in place of the original's `7`. -/
theorem postfix_wrapper_result_override_witness :
    truthy (icptSetFive (PyVal.tuple []) (PyVal.dict [])
        (origSideEffect (PyVal.tuple []) (PyVal.dict [])).1).1.2 = true ∧
    (postfixAtomWrapper origSideEffect icptSetFive (PyVal.tuple []) (PyVal.dict [])).1
      = PyVal.int 5 :=
  ⟨rfl,
    (postfix_wrapper_result_override origSideEffect icptSetFive
      (PyVal.tuple []) (PyVal.dict [])).2.1 rfl⟩

/-- Claim C9 (code_bug): `_prefix_wrapper` runs the interceptor first, but
then calls `func(args, kwargs)` (patching.py:455) — handing the wrapped
callable the packed argument tuple and the keyword dict as two positional
arguments instead of forwarding `*args, **kwargs`.  On a callable that
returns its first positional argument, the wrapper yields the packed tuple
`( 5,)` where the claim requires `5`.  (`_postfix_wrapper`, by contrast,
forwards `func(*args, **kwargs)` faithfully, patching.py:477.) -/
theorem elementary_prefix_wraps_args :
    (elementaryPrefixW funcFirstArg pfnNoop [PyVal.int 5] []).1
      = PyVal.tuple [PyVal.int 5] ∧
    (funcFirstArg [PyVal.int 5] []).1 = PyVal.int 5 ∧
    PyVal.tuple [PyVal.int 5] ≠ PyVal.int 5 ∧
    (elementaryPrefixW funcFirstArg pfnNoop [PyVal.int 5] []).2
      = ["interceptor ran"] ∧
    (elementaryPostfixW funcFirstArg pfnNoop [PyVal.int 5] []).2
      = ["interceptor ran"] :=
  ⟨rfl, rfl, fun h => PyVal.noConfusion h, rfl, rfl⟩

/-- Claim C1 (code_bug): the import hook is installed as
`elementary_postfix(builtins.__import__, process_imports)`
(patching.py:339-342), and `_postfix_wrapper` returns the *interceptor's*
return value (patching.py:479).  `process_imports` ends without a `return`
statement, so every namespace load through the wrapped primitive returns
`None` instead of the module the original load produced — the original
module `os` is loaded (its trace appears first) but not returned. -/
theorem import_hook_returns_none :
    (elementaryPostfixW importOrig processImportsFn [PyVal.str "os"] []).1
      = PyVal.none ∧
    (importOrig [PyVal.str "os"] []).1 = PyVal.module "os" ∧
    PyVal.none ≠ PyVal.module "os" ∧
    (elementaryPostfixW importOrig processImportsFn [PyVal.str "os"] []).2
      = ["loaded os", "drained pending patches"] :=
  ⟨rfl, rfl, fun h => PyVal.noConfusion h, rfl⟩

/-- Updating a key and looking it up again yields the new value. -/
theorem assocFind_assocSet_self (k : String) (v : β) (l : List (String × β)) :
    assocFind k (assocSet k v l) = some v := by
  induction l with
  | nil => simp [assocSet, assocFind]
  | cons p rest ih =>
    obtain ⟨k', v'⟩ := p
    by_cases h : k' = k
    · simp [assocSet, assocFind, h]
    · simp [assocSet, assocFind, h, ih]

/-- Claim C8 (confirmed): queueing a prefix for a namespace that is not yet
resolvable applies nothing immediately (the caller's scope is returned
untouched and only the registry gains the entry); when a module of that
name is loaded, `process_imports` applies the entry to it and removes it
from the registry, leaving the pending set empty; any later load of the
same name finds the empty set and changes nothing, so the entry is consumed
exactly once (patching.py:314-337, 508-521). -/
theorem pending_entry_applied_once (reg : Registry) (scope : List (String × ModuleNS))
    (modname sname : String) (pid : Nat) (m m' : ModuleNS)
    (hscope : assocFind modname scope = Option.none)
    (hreg : assocFind modname reg = Option.none)
    (hname : m.name = modname)
    (happly : prefixAtom m sname pid = some m') :
    ∃ reg1 reg2,
      prefixReg reg scope modname sname pid = some (reg1, scope) ∧
      assocFind modname reg1
        = some [{ kind := "prefix", sym := sname, interceptorId := pid }] ∧
      processImports reg1 m = some (reg2, m') ∧
      assocFind modname reg2 = some [] ∧
      ∀ m2 : ModuleNS, m2.name = modname →
        ∃ reg3, processImports reg2 m2 = some (reg3, m2) ∧
          assocFind modname reg3 = some [] := by
  refine ⟨assocSet modname [{ kind := "prefix", sym := sname, interceptorId := pid }] reg,
    assocSet modname []
      (assocSet modname [{ kind := "prefix", sym := sname, interceptorId := pid }] reg),
    ?_, ?_, ?_, ?_, ?_⟩
  · simp [prefixReg, hscope, hreg]
  · exact assocFind_assocSet_self _ _ _
  · simp [processImports, hname, assocFind_assocSet_self, drainGo, applyEntry, happly]
  · exact assocFind_assocSet_self _ _ _
  · intro m2 hm2
    refine ⟨assocSet modname []
      (assocSet modname []
        (assocSet modname [{ kind := "prefix", sym := sname, interceptorId := pid }] reg)),
      ?_, ?_⟩
    · simp [processImports, hm2, assocFind_assocSet_self, drainGo]
    · exact assocFind_assocSet_self _ _ _

/-- Witness for C8 on the concrete module `futuremod` with symbol `f` and
interceptor 7. -/
theorem pending_entry_applied_once_witness :
    mFut.name = "futuremod" ∧ prefixAtom mFut "f" 7 = some mFutPatched ∧
    ∃ reg1 reg2,
      prefixReg ([] : Registry) [] "futuremod" "f" 7 = some (reg1, []) ∧
      assocFind "futuremod" reg1
        = some [{ kind := "prefix", sym := "f", interceptorId := 7 }] ∧
      processImports reg1 mFut = some (reg2, mFutPatched) ∧
      assocFind "futuremod" reg2 = some [] ∧
      ∀ m2 : ModuleNS, m2.name = "futuremod" →
        ∃ reg3, processImports reg2 m2 = some (reg3, m2) ∧
          assocFind "futuremod" reg3 = some [] :=
  ⟨rfl, rfl,
    pending_entry_applied_once [] [] "futuremod" "f" 7 mFut mFutPatched rfl rfl rfl rfl⟩

/-- A single wrapper invocation on a not-yet-patched interceptor: the
out-var patch rewrites the code in place and records `["_result"]`. -/
theorem patch_step_unpatched (f : PyFunc) (h : f.meta = Option.none) :
    prefixAtomPatchStep f =
      { code := outvarRewrite ["_result"] f.code, varnames := f.varnames,
        meta := some { captured := ["_result"],
                       original := { code := f.code, varnames := f.varnames } } } := by
  simp [prefixAtomPatchStep, OutVar.patch, resolveNames, h]

/-- A single wrapper invocation on an already-patched interceptor: one more
`"_result"` is prepended and the original code is rewritten afresh. -/
theorem patch_step_patched (f : PyFunc) (c : List String) (o : OrigFunc)
    (h : f.meta = some { captured := c, original := o }) :
    prefixAtomPatchStep f =
      { code := outvarRewrite ("_result" :: c) o.code, varnames := f.varnames,
        meta := some { captured := "_result" :: c, original := o } } := by
  simp [prefixAtomPatchStep, OutVar.patch, resolveNames, h]

/-- Iterating the wrapper's per-call patch from an already-patched state. -/
theorem iter_patched_aux (n : Nat) :
    ∀ (X : List Instr) (V c : List String) (o : OrigFunc),
    prefixAtomPatchIter (n + 1)
        { code := X, varnames := V, meta := some { captured := c, original := o } }
      = { code := outvarRewrite (List.replicate (n + 1) "_result" ++ c) o.code,
          varnames := V,
          meta := some { captured := List.replicate (n + 1) "_result" ++ c,
                         original := o } } := by
  induction n with
  | zero =>
    intro X V c o
    show prefixAtomPatchIter 0 (prefixAtomPatchStep _) = _
    rw [patch_step_patched _ c o rfl]
    simp [prefixAtomPatchIter]
  | succ k ih =>
    intro X V c o
    show prefixAtomPatchIter (k + 1) (prefixAtomPatchStep _) = _
    rw [patch_step_patched _ c o rfl]
    rw [ih]
    have hrep : List.replicate (k + 1) "_result" ++ ("_result" :: c)
        = List.replicate (k + 2) "_result" ++ c := by
      rw [List.append_cons, ← List.replicate_succ']
    rw [hrep]

/-- Claim C10 (confirmed): every invocation of the prefix/postfix wrapper
mutates the caller-supplied interceptor in place via
`OutVar.patch(…, '_result')` (patching.py:388, 429): after `n ≥ 1`
invocations its capture list has gained one `"_result"` per invocation and
its code object has been rewritten (always from the original).  Calling the
interceptor directly afterwards therefore returns the tuple of its original
return value and the final `_result` local instead of the bare value, as
the concrete interceptor `icptC` shows. -/
theorem prefix_wrapper_mutates_interceptor (f : PyFunc) (n : Nat)
    (h1 : f.meta = Option.none) (h2 : 1 ≤ n) :
    OutVar.get_capture (prefixAtomPatchIter n f) = some (List.replicate n "_result") ∧
    (prefixAtomPatchIter n f).code
      = outvarRewrite (List.replicate n "_result") f.code ∧
    exec icptC.code [("_result", PyVal.str "r")] 10 = some (PyVal.bool false) ∧
    exec (prefixAtomPatchStep icptC).code [("_result", PyVal.str "r")] 10
      = some (PyVal.tuple [PyVal.bool false, PyVal.str "r"]) := by
  obtain ⟨k, rfl⟩ : ∃ k, n = k + 1 := ⟨n - 1, (Nat.succ_pred_eq_of_pos h2).symm⟩
  have hstate : prefixAtomPatchIter (k + 1) f
      = { code := outvarRewrite (List.replicate (k + 1) "_result") f.code,
          varnames := f.varnames,
          meta := some { captured := List.replicate (k + 1) "_result",
                         original := { code := f.code, varnames := f.varnames } } } := by
    cases k with
    | zero =>
      show prefixAtomPatchIter 0 (prefixAtomPatchStep f) = _
      rw [patch_step_unpatched f h1]
      simp [prefixAtomPatchIter]
    | succ j =>
      show prefixAtomPatchIter (j + 1) (prefixAtomPatchStep f) = _
      rw [patch_step_unpatched f h1]
      rw [iter_patched_aux j]
      have hrep : List.replicate (j + 1) "_result" ++ ["_result"]
          = List.replicate (j + 2) "_result" := (List.replicate_succ' _ _).symm
      rw [hrep]
  refine ⟨?_, ?_, rfl, rfl⟩
  · rw [hstate]; rfl
  · rw [hstate]

/-- Witness for C10: after two wrapper invocations the interceptor's
capture list is `["_result", "_result"]`. -/
theorem prefix_wrapper_mutates_interceptor_witness :
    icptC.meta = Option.none ∧ 1 ≤ 2 ∧
    OutVar.get_capture (prefixAtomPatchIter 2 icptC)
      = some (List.replicate 2 "_result") :=
  ⟨rfl, by decide, (prefix_wrapper_mutates_interceptor icptC 2 rfl (by decide)).1⟩
